import Mathlib

/-!
Verification development for the RFQ-automation core (Python sources under
src/).  The definitions below are a shallow embedding of the code that the
claims are about:

* src/core.py        — get_unique_suppliers_list, scrape_nsn (workflow
                        orchestrator, Stage-C contact discovery with the
                        deadline check), scrape_batch (paced-sequential
                        batch strategy);
* src/models.py      — the result/status record types;
* src/utils/helpers.py — validate_nsn, format_nsn, format_nsn_with_dashes;
* src/scrapers/browser_pool.py — BrowserPool.get_context (semaphore-bounded
                        leasing with timeout and guaranteed release);
* src/api.py         — the bounded-concurrent batch endpoint's per-item path.

Python strings are Lean String, Python ints are Nat/Int, Python None is
Option.none, a Python function that may raise is an Except-valued oracle
passed in as an argument, and wall-clock reads are oracle arguments as well
(the value time.monotonic() would return at the corresponding program
point).  Fields of the Python models that no claim touches (timestamps,
raw payloads, URLs) are omitted.
-/

namespace RFQ

/-- An entity coming from one source.  Both `ApprovedSource` (DIBBS) and
`WBPartsManufacturer` (WBParts) in src/models.py carry exactly the fields
`company_name`, `cage_code`, `part_number`; the merge in
`get_unique_suppliers_list` reads only those, so one Lean structure embeds
both. -/
structure SrcEntity where
  company_name : String
  cage_code : String
  part_number : String
deriving DecidableEq

/-- A merged supplier dict as built by `get_unique_suppliers_list`
(src/core.py lines 70-74 and 80-84): keys companyName, cageCode,
partNumber. -/
structure Supplier where
  companyName : String
  cageCode : String
  partNumber : String
deriving DecidableEq

/-- The dedup key string built in src/core.py lines 67 and 77:
f-string "{company_name}|{cage_code}". -/
def entityKey (e : SrcEntity) : String :=
  e.company_name ++ "|" ++ e.cage_code

/-- The supplier dict appended for a kept entity (src/core.py 70-74, 80-84). -/
def toSupplier (e : SrcEntity) : Supplier :=
  ⟨e.company_name, e.cage_code, e.part_number⟩

/-- One of the two identical loops of `get_unique_suppliers_list`
(src/core.py 66-74 and 76-84): threads the `seen` set (embedded as a list
of key strings) and the accumulated `suppliers` list through the entities
of one source.  An entity is appended exactly when its key is unseen and
its company name is non-empty, and only then is its key added to `seen`. -/
def addSuppliers : List String → List Supplier → List SrcEntity → List String × List Supplier
  | seen, acc, [] => (seen, acc)
  | seen, acc, e :: rest =>
    if entityKey e ∉ seen ∧ e.company_name ≠ "" then
      addSuppliers (entityKey e :: seen) (acc ++ [toSupplier e]) rest
    else
      addSuppliers seen acc rest

/-- Embeds `get_unique_suppliers_list` (src/core.py 58-86): run the loop
over the DIBBS approved sources, then — with the same `seen` set and
accumulator — over the WBParts manufacturers. -/
def get_unique_suppliers_list (dibbs_sources : List SrcEntity) (wbparts_mfrs : List SrcEntity) :
    List Supplier :=
  let d := addSuppliers [] [] dibbs_sources
  (addSuppliers d.1 d.2 wbparts_mfrs).2

/-- Specification-side dedup used to characterise the merge: keep an entity
iff its key string has not occurred before (first-occurrence-wins,
insertion order preserved). -/
def dedupByKey : List String → List SrcEntity → List SrcEntity
  | _, [] => []
  | seen, e :: rest =>
    if entityKey e ∈ seen then dedupByKey seen rest
    else e :: dedupByKey (entityKey e :: seen) rest

/-- The `seen` set produced by one `addSuppliers` loop (same recursion,
projected to the first component). -/
def newSeen : List String → List SrcEntity → List String
  | seen, [] => seen
  | seen, e :: rest =>
    if entityKey e ∉ seen ∧ e.company_name ≠ "" then
      newSeen (entityKey e :: seen) rest
    else
      newSeen seen rest

/-- Single-recursion companion of `addSuppliers`: the list of entities the
loop keeps. -/
def dedupNE : List String → List SrcEntity → List SrcEntity
  | _, [] => []
  | seen, e :: rest =>
    if entityKey e ∉ seen ∧ e.company_name ≠ "" then
      e :: dedupNE (entityKey e :: seen) rest
    else
      dedupNE seen rest

/-- Embeds `format_nsn` (src/utils/helpers.py 13-20): remove dashes. -/
def format_nsn (nsn : String) : String :=
  String.mk (nsn.toList.filter (fun c => c ≠ '-'))

/-- Embeds `format_nsn_with_dashes` (src/utils/helpers.py 23-38): strip
dashes; if 13 characters remain, regroup as XXXX-XX-XXX-XXXX, otherwise
return the input unchanged. -/
def format_nsn_with_dashes (nsn : String) : String :=
  let clean := nsn.toList.filter (fun c => c ≠ '-')
  if clean.length = 13 then
    String.mk (clean.take 4) ++ "-" ++ String.mk ((clean.drop 4).take 2) ++ "-"
      ++ String.mk ((clean.drop 6).take 3) ++ "-" ++ String.mk ((clean.drop 9).take 4)
  else nsn

/-- Embeds the dashed pattern of `validate_nsn` (src/utils/helpers.py 50):
four digits, dash, two digits, dash, three digits, dash, four digits. -/
def matchesWithDashes (s : String) : Bool :=
  match s.toList with
  | [a, b, c, d, x, e, f, y, g, h, i, z, j, k, l, m] =>
      x = '-' && y = '-' && z = '-'
        && [a, b, c, d, e, f, g, h, i, j, k, l, m].all Char.isDigit
  | _ => false

/-- Embeds the dashless pattern of `validate_nsn` (src/utils/helpers.py 52):
exactly thirteen digits. -/
def matchesWithoutDashes (s : String) : Bool :=
  s.length = 13 && s.toList.all Char.isDigit

/-- Embeds `validate_nsn` (src/utils/helpers.py 41-54): the NSN matches the
dashed or the dashless pattern. -/
def validate_nsn (s : String) : Bool :=
  matchesWithDashes s || matchesWithoutDashes s

/-- Contact model (src/models.py `SupplierContact`): the orchestrator reads
only the confidence field ("high" | "medium" | "low"). -/
structure SupplierContact where
  confidence : String
deriving DecidableEq

/-- Embeds `SupplierWithContact` (src/models.py 139-147). -/
structure SupplierWithContact where
  companyName : String
  cageCode : String
  partNumber : String
  contact : Option SupplierContact
deriving DecidableEq

/-- The deadline check of `_discover_one` (src/core.py 177):
`deadline is not None and (deadline - time.monotonic()) <= 5`.
`remaining` is `deadline - time.monotonic()` at the moment of the check;
none models `deadline is None` (timeout_seconds = 0). -/
def deadlineHit (remaining : Option Int) : Bool :=
  match remaining with
  | some r => r ≤ 5
  | none => false

/-- Embeds `_discover_one` (src/core.py 172-210) for one supplier.  `call`
is the outcome of the `find_supplier_contact` invocation: `.error` models
the call raising (caught at src/core.py 195-197, contact becomes None),
`.ok` its return value (a contact or None).  Returns the built
SupplierWithContact, whether this task set the shared `timed_out` flag
(the deadline-skip path, src/core.py 177-184), and whether the enrichment
service was invoked at all. -/
def discover_one (supplier : Supplier) (remaining : Option Int)
    (call : Except String (Option SupplierContact)) :
    SupplierWithContact × Bool × Bool :=
  if deadlineHit remaining then
    (⟨supplier.companyName, supplier.cageCode, supplier.partNumber, none⟩, true, false)
  else
    (⟨supplier.companyName, supplier.cageCode, supplier.partNumber,
      match call with
      | .ok c => c
      | .error _ => none⟩, false, true)

/-- The per-supplier success test of src/core.py 217-219: a contact is
present and its confidence is not "low". -/
def countsAsSuccess (swc : SupplierWithContact) : Bool :=
  match swc.contact with
  | some c => c.confidence ≠ "low"
  | none => false

/-- The value `success_count` reaches after the loop of src/core.py 217-219. -/
def success_count (swcs : List SupplierWithContact) : Nat :=
  (swcs.filter countsAsSuccess).length

/-- Result of the Stage-C contact-discovery step, together with the
per-task deadline-skip flags and whether each task invoked the service
(the oracle traces of the run). -/
structure DiscoveryOutcome where
  suppliers_with_contacts : List SupplierWithContact
  firecrawl_status : String
  timedOutFlags : List Bool
  serviceCalled : List Bool
deriving DecidableEq

/-- The list built by the gather at src/core.py 212-214: one `_discover_one`
run per supplier, task i seeing `remaining i` on the shared deadline and
outcome `call i` of its service invocation. -/
def discoveryResults (all_suppliers : List Supplier) (remaining : Nat → Option Int)
    (call : Nat → Except String (Option SupplierContact)) :
    List (SupplierWithContact × Bool × Bool) :=
  all_suppliers.enum.map (fun p => discover_one p.2 (remaining p.1) (call p.1))

/-- Embeds Step 2 of `scrape_nsn` (src/core.py 158-246): if suppliers exist
and Firecrawl is configured, run `_discover_one` per supplier and derive
`firecrawl_status` exactly as src/core.py 226-233 (the `timed_out` flag
first, then all / some / none successes); otherwise mark every supplier
contact-less and leave the status "skipped" (src/core.py 159, 234-246). -/
def contactDiscovery (all_suppliers : List Supplier) (configured : Bool)
    (remaining : Nat → Option Int) (call : Nat → Except String (Option SupplierContact)) :
    DiscoveryOutcome :=
  if !all_suppliers.isEmpty && configured then
    { suppliers_with_contacts := (discoveryResults all_suppliers remaining call).map (fun r => r.1),
      firecrawl_status :=
        if ((discoveryResults all_suppliers remaining call).map (fun r => r.2.1)).any id then
          "partial_timeout"
        else if success_count ((discoveryResults all_suppliers remaining call).map (fun r => r.1))
            = all_suppliers.length then "success"
        else if 0 < success_count
            ((discoveryResults all_suppliers remaining call).map (fun r => r.1)) then "partial"
        else "error",
      timedOutFlags := (discoveryResults all_suppliers remaining call).map (fun r => r.2.1),
      serviceCalled := (discoveryResults all_suppliers remaining call).map (fun r => r.2.2) }
  else
    { suppliers_with_contacts :=
        all_suppliers.map (fun s => ⟨s.companyName, s.cageCode, s.partNumber, none⟩),
      firecrawl_status := "skipped",
      timedOutFlags := all_suppliers.map (fun _ => false),
      serviceCalled := all_suppliers.map (fun _ => false) }

/-- The Stage-C aggregate status table exactly as the spec (§4.2) words it,
as a function of whether enrichment was attempted and the timed-out /
success / fail counts of the attempts. -/
def claimStatusTable (attempted : Bool) (timedOutCount succCount failCount : Nat) : String :=
  if !attempted then "skipped"
  else if 0 < timedOutCount then "partial_timeout"
  else if failCount = 0 then "success"
  else if 0 < succCount then "partial"
  else "error"

/-- The success notion in the words of claim C1: an attempt succeeds iff it
yields a contact (of any confidence). -/
def claimYieldsContact (swc : SupplierWithContact) : Bool :=
  swc.contact.isSome

/-- Embeds `RFQData` (src/models.py 40-52), the fields `scrape_nsn` reads. -/
structure RFQData where
  nsn : String
  nomenclature : String
  approved_sources : List SrcEntity
  has_open_rfqs : Bool
deriving DecidableEq

/-- Embeds `ScrapeResult` (src/models.py 55-59), DIBBS fetch outcome. -/
structure ScrapeResult where
  success : Bool
  data : Option RFQData
  error : Option String
deriving DecidableEq

/-- Embeds `WBPartsData` (src/models.py 88-102), the fields scrape_nsn reads. -/
structure WBPartsData where
  nsn : String
  item_name : String
  manufacturers : List SrcEntity
deriving DecidableEq

/-- Embeds `WBPartsScrapeResult` (src/models.py 105-109). -/
structure WBPartsScrapeResult where
  success : Bool
  data : Option WBPartsData
  error : Option String
deriving DecidableEq

/-- Embeds `WorkflowStatus` (src/models.py 158-165). -/
structure WorkflowStatus where
  dibbsStatus : String
  wbpartsStatus : String
  firecrawlStatus : String
deriving DecidableEq

/-- Embeds `EnhancedRFQResult` (src/models.py 168-183), the fields the
claims touch (rawData and scrapedAt omitted). -/
structure EnhancedRFQResult where
  nsn : String
  itemName : String
  hasOpenRFQ : Bool
  suppliers : List SupplierWithContact
  workflow : WorkflowStatus
deriving DecidableEq

/-- Embeds `scrape_nsn` (src/core.py 89-280).  Stage A (the gather of
scrape_dibbs and scrape_wbparts) hands back structured results; they enter
here as the `dibbs_result` / `wbparts_result` inputs.  The body follows
src/core.py: extract per-source entity lists from whichever results carry
data (131-133), merge (134), cap at max_suppliers when positive (148-150),
run contact discovery (158-246), and assemble the EnhancedRFQResult with
the three per-stage statuses (261-278). -/
def scrape_nsn (nsn : String) (dibbs_result : ScrapeResult)
    (wbparts_result : WBPartsScrapeResult) (max_suppliers : Nat) (configured : Bool)
    (remaining : Nat → Option Int) (call : Nat → Except String (Option SupplierContact)) :
    EnhancedRFQResult :=
  let dibbs_sources := match dibbs_result.data with
    | some d => d.approved_sources
    | none => []
  let wbparts_mfrs := match wbparts_result.data with
    | some d => d.manufacturers
    | none => []
  let all0 := get_unique_suppliers_list dibbs_sources wbparts_mfrs
  let all_suppliers :=
    if 0 < max_suppliers ∧ max_suppliers < all0.length then all0.take max_suppliers else all0
  let disc := contactDiscovery all_suppliers configured remaining call
  { nsn := match dibbs_result.data with
      | some d => d.nsn
      | none => format_nsn_with_dashes nsn,
    itemName := match wbparts_result.data with
      | some w => w.item_name
      | none => match dibbs_result.data with
        | some d => d.nomenclature
        | none => "",
    hasOpenRFQ := match dibbs_result.data with
      | some d => d.has_open_rfqs
      | none => false,
    suppliers := disc.suppliers_with_contacts,
    workflow := { dibbsStatus := if dibbs_result.success then "success" else "error",
                  wbpartsStatus := if wbparts_result.success then "success" else "error",
                  firecrawlStatus := disc.firecrawl_status } }

/-- Embeds `BatchNSNResult` (src/models.py 188-197); α is the per-item
workflow result type. -/
structure BatchNSNResult (α : Type) where
  nsn : String
  status : String
  result : Option α
  errorMessage : Option String
deriving DecidableEq

/-- Embeds `BatchProcessingResult` (src/models.py 200-211). -/
structure BatchProcessingResult (α : Type) where
  totalNsns : Nat
  processed : Nat
  successful : Nat
  failed : Nat
  results : List (BatchNSNResult α)
deriving DecidableEq

/-- One iteration of the `scrape_batch` loop (src/core.py 308-362) for one
NSN.  `runNsn` is the `scrape_nsn` call: `.error` models it raising (caught
at src/core.py 354-359).  An invalid NSN is recorded as an immediate error
entry (311-320); a valid one is formatted and run, and the appended entry
ends up "success" or "error" with the counters updated (329-362).  The
second component lists the NSNs for which `scrape_nsn` was invoked during
this step. -/
def scrape_batch_step {α : Type} (runNsn : String → Except String α)
    (b : BatchProcessingResult α) (nsn : String) : BatchProcessingResult α × List String :=
  if validate_nsn nsn then
    let f := format_nsn_with_dashes nsn
    match runNsn f with
    | .ok r =>
      ({ b with
          processed := b.processed + 1
          successful := b.successful + 1
          results := b.results ++ [⟨f, "success", some r, none⟩] }, [f])
    | .error e =>
      ({ b with
          processed := b.processed + 1
          failed := b.failed + 1
          results := b.results ++ [⟨f, "error", none, some e⟩] }, [f])
  else
    ({ b with
        processed := b.processed + 1
        failed := b.failed + 1
        results := b.results ++ [⟨nsn, "error", none,
          some ("Invalid NSN format: " ++ nsn)⟩] }, [])

/-- Embeds `scrape_batch` (src/core.py 283-369) together with its
invocation trace: fold the per-NSN step over the submitted list, starting
from the empty BatchProcessingResult with totalNsns = len(nsns)
(302-306), and collect which NSNs reached the `scrape_nsn` call. -/
def scrape_batch_trace {α : Type} (nsns : List String) (runNsn : String → Except String α) :
    BatchProcessingResult α × List String :=
  nsns.foldl
    (fun acc nsn =>
      let s := scrape_batch_step runNsn acc.1 nsn
      (s.1, acc.2 ++ s.2))
    (⟨nsns.length, 0, 0, 0, []⟩, [])

/-- Embeds `scrape_batch` (src/core.py 283-369), the returned
BatchProcessingResult. -/
def scrape_batch {α : Type} (nsns : List String) (runNsn : String → Except String α) :
    BatchProcessingResult α :=
  (scrape_batch_trace nsns runNsn).1

/-- Per-item outcome record of the bounded-concurrent batch endpoint
(src/api.py 171-179, the fields the claim touches). -/
structure BatchSuppliersNSNResult (α : Type) where
  nsn : String
  status : String
  result : Option α
  error : Option String
deriving DecidableEq

/-- Trace of one item of the bounded-concurrent batch strategy. -/
structure ConcItemTrace (α : Type) where
  slotAcquired : Bool
  workflowInvoked : Bool
  outcome : BatchSuppliersNSNResult α
deriving DecidableEq

/-- Embeds `_limited_scrape` + `_scrape_one` of the bounded-concurrent
batch endpoint (src/api.py 725-768): `async with nsn_sem` acquires a
concurrency slot unconditionally, then `_scrape_one` invokes `scrape_nsn`
on the raw NSN — there is no per-item validation on this path.  `runNsn`
is the `scrape_nsn` call (`.error` models it raising, caught at
src/api.py 756-762 into an "error" entry). -/
def limited_scrape {α : Type} (nsn : String) (runNsn : String → Except String α) :
    ConcItemTrace α :=
  { slotAcquired := true,
    workflowInvoked := true,
    outcome :=
      match runNsn nsn with
      | .ok r => ⟨nsn, "success", some r, none⟩
      | .error e => ⟨nsn, "error", none, some e⟩ }

/-- Events on the pool's shared state, in the order
`BrowserPool.get_context` (src/scrapers/browser_pool.py 109-158) produces
them: semaphore slot acquired; browser context created; context closed;
slot released. -/
inductive PoolEvent
  | acquire
  | ctxOpen
  | ctxClose
  | release
deriving DecidableEq

/-- The event sequence of one `get_context` usage block
(src/scrapers/browser_pool.py 128-158).  `slotGranted` is the outcome of
`asyncio.wait_for(self._semaphore.acquire(), timeout=timeout)` — false
means TimeoutError, no slot was acquired and none is released.
`ctxCreated` is whether `_ensure_browser` and `browser.new_context`
succeeded; on failure `ctx` stays None and the finally block only releases
the slot.  `body` is the outcome of the caller's usage block (`.error`
models it raising or being cancelled).  The finally block (152-158) closes
the context, if one was created, and releases the slot on every exit. -/
def get_context_events (slotGranted ctxCreated : Bool) (body : Except String Unit) :
    List PoolEvent :=
  if !slotGranted then []
  else if !ctxCreated then [.acquire, .release]
  else
    match body with
    | .ok _ => [.acquire, .ctxOpen, .ctxClose, .release]
    | .error _ => [.acquire, .ctxOpen, .ctxClose, .release]

/-- Legal interleaved traces of pool events under the semaphore discipline:
`avail` counts free slots and `held` slots currently held.  An `.acquire`
is only possible when a slot is free — exactly what
`asyncio.Semaphore(config.MAX_BROWSER_PAGES)` enforces on any interleaving
of `get_context` callers — and a `.release` only by a current holder.
Context open and close events do not touch the semaphore. -/
inductive SemTrace : Nat → Nat → List PoolEvent → Prop
  | nil (avail held : Nat) : SemTrace avail held []
  | acq (avail held : Nat) (tr : List PoolEvent) : 0 < avail →
      SemTrace (avail - 1) (held + 1) tr → SemTrace avail held (PoolEvent.acquire :: tr)
  | opn (avail held : Nat) (tr : List PoolEvent) :
      SemTrace avail held tr → SemTrace avail held (PoolEvent.ctxOpen :: tr)
  | cls (avail held : Nat) (tr : List PoolEvent) :
      SemTrace avail held tr → SemTrace avail held (PoolEvent.ctxClose :: tr)
  | rel (avail held : Nat) (tr : List PoolEvent) : 0 < held →
      SemTrace (avail + 1) (held - 1) tr → SemTrace avail held (PoolEvent.release :: tr)

/-- The held-slot count at every point along an event trace, starting from
(avail, held). -/
def heldAlong : Nat → Nat → List PoolEvent → List Nat
  | _, held, [] => [held]
  | avail, held, PoolEvent.acquire :: tr => held :: heldAlong (avail - 1) (held + 1) tr
  | avail, held, PoolEvent.release :: tr => held :: heldAlong (avail + 1) (held - 1) tr
  | avail, held, _ :: tr => held :: heldAlong avail held tr

/-- Pool state touched by the acquisition phase of `get_context`
(src/scrapers/browser_pool.py 46-52, 122-145). -/
structure PoolState where
  started : Bool
  maxPages : Nat
  semAvail : Nat
  waiting : Nat
deriving DecidableEq

/-- Errors `get_context` raises while acquiring: RuntimeError("BrowserPool
not started...") at src/scrapers/browser_pool.py 122-123, and the
pool-busy RuntimeError at 136-141 carrying the timeout, MAX_BROWSER_PAGES
and the waiting count. -/
inductive PoolError
  | notStarted
  | poolBusy (timeout : Nat) (maxPages : Nat) (waiting : Nat)
deriving DecidableEq

/-- Embeds the acquisition phase of `get_context`
(src/scrapers/browser_pool.py 122-145).  `slotGranted` models the outcome
of `asyncio.wait_for(self._semaphore.acquire(), timeout=timeout)`: true
iff a slot was granted before `timeout` elapsed, false iff the wait ended
in asyncio.TimeoutError without the slot being acquired.  On timeout the
waiting counter is decremented and the pool-busy error is raised carrying
the timeout, the max-page limit and the (post-decrement) waiting count; on
success the slot is held and no error is raised. -/
def get_context_acquire (st : PoolState) (timeout : Nat) (slotGranted : Bool) :
    PoolState × Option PoolError :=
  if !st.started then (st, some .notStarted)
  else
    let w := st.waiting + 1
    if !slotGranted then
      ({ st with waiting := w - 1 }, some (.poolBusy timeout st.maxPages (w - 1)))
    else
      ({ st with waiting := w - 1, semAvail := st.semAvail - 1 }, none)

/-- The batch entry the `scrape_batch` loop records for one NSN: an
invalid NSN becomes an immediate error entry; a valid one is formatted and
becomes a success or error entry according to the `scrape_nsn` outcome
(src/core.py 308-359). -/
def batch_entry {α : Type} (runNsn : String → Except String α) (nsn : String) :
    BatchNSNResult α :=
  if validate_nsn nsn then
    match runNsn (format_nsn_with_dashes nsn) with
    | .ok r => ⟨format_nsn_with_dashes nsn, "success", some r, none⟩
    | .error e => ⟨format_nsn_with_dashes nsn, "error", none, some e⟩
  else ⟨nsn, "error", none, some ("Invalid NSN format: " ++ nsn)⟩

/-- Whether one batch item ends up counted successful: it validates and its
`scrape_nsn` call returns normally (src/core.py 336-349). -/
def batch_item_ok {α : Type} (runNsn : String → Except String α) (nsn : String) : Bool :=
  validate_nsn nsn &&
    (match runNsn (format_nsn_with_dashes nsn) with
     | .ok _ => true
     | .error _ => false)

lemma addSuppliers_eq (es : List SrcEntity) : ∀ (seen : List String) (acc : List Supplier),
    addSuppliers seen acc es = (newSeen seen es, acc ++ (dedupNE seen es).map toSupplier) := by
  induction es with
  | nil => intro seen acc; simp [addSuppliers, newSeen, dedupNE]
  | cons e rest ih =>
    intro seen acc
    by_cases h : entityKey e ∉ seen ∧ e.company_name ≠ ""
    · simp only [addSuppliers, newSeen, dedupNE, if_pos h, ih, List.map_cons]
      simp
    · simp only [addSuppliers, newSeen, dedupNE, if_neg h, ih]

lemma dedupNE_append (xs : List SrcEntity) : ∀ (seen : List String) (ys : List SrcEntity),
    dedupNE seen (xs ++ ys) = dedupNE seen xs ++ dedupNE (newSeen seen xs) ys := by
  induction xs with
  | nil => intro seen ys; simp [dedupNE, newSeen]
  | cons e rest ih =>
    intro seen ys
    by_cases h : entityKey e ∉ seen ∧ e.company_name ≠ ""
    · simp [dedupNE, newSeen, if_pos h, ih]
    · simp [dedupNE, newSeen, if_neg h, ih]

lemma get_unique_suppliers_list_eq (d w : List SrcEntity) :
    get_unique_suppliers_list d w = (dedupNE [] (d ++ w)).map toSupplier := by
  simp [get_unique_suppliers_list, addSuppliers_eq, dedupNE_append]

lemma dedupNE_eq_dedupByKey_filter : ∀ (es : List SrcEntity) (seen : List String),
    dedupNE seen es = dedupByKey seen (es.filter (fun e => e.company_name ≠ "")) := by
  intro es
  induction es with
  | nil => intro seen; simp [dedupNE, dedupByKey]
  | cons e rest ih =>
    intro seen
    by_cases hn : e.company_name = ""
    · have : (decide (e.company_name ≠ "")) = false := by simp [hn]
      simp [dedupNE, List.filter_cons, this, hn, ih]
    · by_cases hs : entityKey e ∈ seen
      · have hcond : ¬(entityKey e ∉ seen ∧ e.company_name ≠ "") := by
          intro h; exact h.1 hs
        simp [dedupNE, List.filter_cons, hn, dedupByKey, hs, hcond, ih]
      · have hcond : entityKey e ∉ seen ∧ e.company_name ≠ "" := ⟨hs, hn⟩
        simp [dedupNE, List.filter_cons, hn, dedupByKey, hs, hcond, ih]

/-- Characterisation of the merge: filter out empty company names over the
concatenation (DIBBS list first, then WBParts), dedup by the key string,
map to supplier dicts. -/
lemma get_unique_suppliers_list_char (d w : List SrcEntity) :
    get_unique_suppliers_list d w
      = (dedupByKey [] ((d ++ w).filter (fun e => e.company_name ≠ ""))).map toSupplier := by
  rw [get_unique_suppliers_list_eq, dedupNE_eq_dedupByKey_filter]

lemma dedupByKey_subset : ∀ (l : List SrcEntity) (seen : List String),
    ∀ e ∈ dedupByKey seen l, e ∈ l := by
  intro l
  induction l with
  | nil => intro seen e he; simp [dedupByKey] at he
  | cons x rest ih =>
    intro seen e he
    by_cases h : entityKey x ∈ seen
    · simp only [dedupByKey, if_pos h] at he
      exact List.mem_cons_of_mem _ (ih _ e he)
    · simp only [dedupByKey, if_neg h, List.mem_cons] at he
      rcases he with he | he
      · exact he ▸ List.mem_cons_self _ _
      · exact List.mem_cons_of_mem _ (ih _ e he)

lemma dedupByKey_keys_nodup : ∀ (l : List SrcEntity) (seen : List String),
    ((dedupByKey seen l).map entityKey).Nodup ∧ ∀ e ∈ dedupByKey seen l, entityKey e ∉ seen := by
  intro l
  induction l with
  | nil => intro seen; simp [dedupByKey]
  | cons x rest ih =>
    intro seen
    by_cases h : entityKey x ∈ seen
    · simp only [dedupByKey, if_pos h]
      exact ih seen
    · simp only [dedupByKey, if_neg h, List.map_cons, List.nodup_cons]
      refine ⟨⟨?_, (ih (entityKey x :: seen)).1⟩, ?_⟩
      · intro hmem
        rcases List.mem_map.mp hmem with ⟨e, he, hke⟩
        exact (ih (entityKey x :: seen)).2 e he (hke ▸ List.mem_cons_self _ _)
      · intro e he
        rcases List.mem_cons.mp he with rfl | he
        · exact h
        · intro hseen
          exact (ih (entityKey x :: seen)).2 e he (List.mem_cons_of_mem _ hseen)

/-- C4 counterexample: the merge is not the plain deduplicated union of the
two source lists — an entity whose company name is the empty string is
silently dropped (src/core.py 68, 78: the append condition also requires a
truthy company_name).  With a single DIBBS entity ("", "123", "p1") the
claimed union would contain that entity, but `get_unique_suppliers_list`
returns the empty list. -/
theorem c4_counterexample :
    get_unique_suppliers_list [⟨"", "123", "p1"⟩] [] = []
      ∧ (⟨"", "123", "p1"⟩ : SrcEntity) ∈ [(⟨"", "123", "p1"⟩ : SrcEntity)] := by
  decide

/-- C4 (amended): the merged supplier list equals the union of the two
per-source entity lists (DIBBS first, then WBParts — which in scrape_nsn
are the lists of the sources that returned data, i.e. the successful
sources) restricted to entities with non-empty company name, deduplicated
by the key string companyName ++ "|" ++ cageCode, first occurrence wins,
insertion order preserved; consequently after the merge there is at most
one entity per (company name, CAGE code) pair. -/
theorem c4_merge_dedup (dibbs wb : List SrcEntity) :
    get_unique_suppliers_list dibbs wb
      = (dedupByKey [] ((dibbs ++ wb).filter (fun e => e.company_name ≠ ""))).map toSupplier
    ∧ (get_unique_suppliers_list dibbs wb).Pairwise
        (fun a b => ¬(a.companyName = b.companyName ∧ a.cageCode = b.cageCode)) := by
  refine ⟨get_unique_suppliers_list_char dibbs wb, ?_⟩
  rw [get_unique_suppliers_list_eq]
  have h1 := (dedupByKey_keys_nodup ((dibbs ++ wb).filter (fun e => e.company_name ≠ "")) []).1
  rw [← dedupNE_eq_dedupByKey_filter] at h1
  have h2 : (dedupNE [] (dibbs ++ wb)).Pairwise (fun a b => entityKey a ≠ entityKey b) := by
    simpa [List.Nodup, List.pairwise_map] using h1
  rw [List.pairwise_map]
  refine h2.imp ?_
  intro a b hk hab
  apply hk
  simp only [toSupplier] at hab
  simp only [entityKey, hab.1, hab.2]

/-- C9 counterexample: with source lists [("Acme","123"), unique1] and
[("Acme","123"), unique2] the merge yields three entities, not the two the
claim states — the duplicate "Acme" collapses to one, and each source's
unique entity survives. -/
theorem c9_counterexample :
    ¬((get_unique_suppliers_list
        [⟨"Acme", "123", "pA"⟩, ⟨"UniqueOne", "111", "p1"⟩]
        [⟨"Acme", "123", "pB"⟩, ⟨"UniqueTwo", "222", "p2"⟩]).length = 2) := by
  decide

/-- C9 (amended): one source returning ("Acme","123") plus one unique
entity and the other returning ("Acme","123") plus one other unique entity
merge to exactly three entities, in first-occurrence order: Acme (with the
first source's part number), then the first source's unique entity, then
the second source's. -/
theorem c9_merge_three_entities :
    get_unique_suppliers_list
        [⟨"Acme", "123", "pA"⟩, ⟨"UniqueOne", "111", "p1"⟩]
        [⟨"Acme", "123", "pB"⟩, ⟨"UniqueTwo", "222", "p2"⟩]
      = [⟨"Acme", "123", "pA"⟩, ⟨"UniqueOne", "111", "p1"⟩, ⟨"UniqueTwo", "222", "p2"⟩] := by
  decide

/-- C10: every supplier in the merged list has a non-empty company name,
and an entity whose company name is empty is silently excluded from the
merge — removing it from either source list (its key never having been
recorded as seen) leaves the merge result unchanged. -/
theorem c10_empty_name_excluded :
    (∀ d w : List SrcEntity, ∀ s ∈ get_unique_suppliers_list d w, s.companyName ≠ "")
    ∧ (∀ (d1 d2 w : List SrcEntity) (e : SrcEntity), e.company_name = "" →
        get_unique_suppliers_list (d1 ++ e :: d2) w = get_unique_suppliers_list (d1 ++ d2) w)
    ∧ (∀ (d w1 w2 : List SrcEntity) (e : SrcEntity), e.company_name = "" →
        get_unique_suppliers_list d (w1 ++ e :: w2) = get_unique_suppliers_list d (w1 ++ w2)) := by
  refine ⟨?_, ?_, ?_⟩
  · intro d w s hs
    rw [get_unique_suppliers_list_char] at hs
    rcases List.mem_map.mp hs with ⟨e, he, rfl⟩
    have hmem := dedupByKey_subset _ _ e he
    have := List.of_mem_filter hmem
    simpa [toSupplier] using of_decide_eq_true this
  · intro d1 d2 w e he
    rw [get_unique_suppliers_list_char, get_unique_suppliers_list_char]
    have : ((d1 ++ e :: d2) ++ w).filter (fun x => x.company_name ≠ "")
        = ((d1 ++ d2) ++ w).filter (fun x => x.company_name ≠ "") := by
      simp [List.filter_append, List.filter_cons, he]
    rw [this]
  · intro d w1 w2 e he
    rw [get_unique_suppliers_list_char, get_unique_suppliers_list_char]
    have : (d ++ (w1 ++ e :: w2)).filter (fun x => x.company_name ≠ "")
        = (d ++ (w1 ++ w2)).filter (fun x => x.company_name ≠ "") := by
      simp [List.filter_append, List.filter_cons, he]
    rw [this]

/-- Witness for C10 at concrete inputs: the merged supplier ("Acme","1","p")
has a non-empty name, and inserting the empty-named entity ("","9","q")
into the DIBBS list leaves the merge unchanged. -/
theorem c10_empty_name_excluded_witness :
    (⟨"Acme", "1", "p"⟩ : Supplier).companyName ≠ ""
    ∧ get_unique_suppliers_list ([⟨"Acme", "1", "p"⟩] ++ (⟨"", "9", "q"⟩ : SrcEntity) :: []) []
        = get_unique_suppliers_list ([⟨"Acme", "1", "p"⟩] ++ []) [] := by
  constructor
  · exact c10_empty_name_excluded.1 [⟨"Acme", "1", "p"⟩] [] ⟨"Acme", "1", "p"⟩ (by decide)
  · exact c10_empty_name_excluded.2.1 [⟨"Acme", "1", "p"⟩] [] [] ⟨"", "9", "q"⟩ (by decide)

lemma discoveryResults_length (suppliers : List Supplier) (remaining : Nat → Option Int)
    (call : Nat → Except String (Option SupplierContact)) :
    (discoveryResults suppliers remaining call).length = suppliers.length := by
  simp [discoveryResults]

lemma discoveryResults_getElem (suppliers : List Supplier) (remaining : Nat → Option Int)
    (call : Nat → Except String (Option SupplierContact)) (i : Nat) :
    (discoveryResults suppliers remaining call)[i]?
      = suppliers[i]?.map (fun s => discover_one s (remaining i) (call i)) := by
  simp [discoveryResults, List.getElem?_map, List.getElem?_enum, Option.map_map]
  rfl

lemma any_iff_filter_pos (l : List Bool) : l.any id = true ↔ 0 < (l.filter id).length := by
  rw [List.any_eq_true]
  constructor
  · rintro ⟨x, hx, rfl⟩
    exact List.length_pos_of_mem (List.mem_filter.mpr ⟨hx, by simp [id]⟩)
  · intro hpos
    rcases List.length_pos_iff_exists_mem.mp hpos with ⟨x, hx⟩
    exact ⟨x, (List.mem_filter.mp hx).1, by simpa [id] using (List.mem_filter.mp hx).2⟩

/-- C1 counterexample: one supplier, Firecrawl configured, no deadline; the
enrichment attempt yields a contact — of confidence "low" (exactly what
`find_supplier_contact` returns when it finds nothing, see
src/services/firecrawl.py).  By the claim's own accounting every attempt
succeeded (a contact was yielded), none failed, none timed out, so the
table says "success"; the code (src/core.py 217-233) counts low-confidence
contacts as failures and derives "error". -/
theorem c1_counterexample :
    (contactDiscovery [⟨"Acme", "123", "p"⟩] true (fun _ => none)
        (fun _ => Except.ok (some ⟨"low"⟩))).firecrawl_status = "error"
    ∧ ((contactDiscovery [⟨"Acme", "123", "p"⟩] true (fun _ => none)
        (fun _ => Except.ok (some ⟨"low"⟩))).suppliers_with_contacts.filter
          claimYieldsContact).length = 1
    ∧ (contactDiscovery [⟨"Acme", "123", "p"⟩] true (fun _ => none)
        (fun _ => Except.ok (some ⟨"low"⟩))).suppliers_with_contacts.length = 1
    ∧ ((contactDiscovery [⟨"Acme", "123", "p"⟩] true (fun _ => none)
        (fun _ => Except.ok (some ⟨"low"⟩))).timedOutFlags.filter id).length = 0
    ∧ claimStatusTable true 0 1 0 = "success" := by
  decide

/-- C1 (amended): the Stage-C aggregate status is derived per the spec
table, where a success is an attempt that yields a contact of high or
medium confidence — a low-confidence contact (the service's
nothing-found placeholder) or an absent contact counts as a failed
attempt.  Attempted means: merged entities exist and the enrichment
capability is configured; the timed-out count is the number of
deadline-skipped entities; the fail count is the number of attempts that
did not succeed. -/
theorem c1_status_table (suppliers : List Supplier) (configured : Bool)
    (remaining : Nat → Option Int) (call : Nat → Except String (Option SupplierContact)) :
    (contactDiscovery suppliers configured remaining call).firecrawl_status
      = claimStatusTable (!suppliers.isEmpty && configured)
          ((contactDiscovery suppliers configured remaining call).timedOutFlags.filter id).length
          (success_count
            (contactDiscovery suppliers configured remaining call).suppliers_with_contacts)
          ((contactDiscovery suppliers configured remaining call).suppliers_with_contacts.length
            - success_count
                (contactDiscovery suppliers configured remaining call).suppliers_with_contacts) := by
  cases hA : (!suppliers.isEmpty && configured) with
  | false =>
    simp [contactDiscovery, hA, claimStatusTable]
  | true =>
    simp only [contactDiscovery, hA, if_true]
    have hlen : ((discoveryResults suppliers remaining call).map (fun r => r.1)).length
        = suppliers.length := by
      simp [discoveryResults_length]
    have hsc : success_count ((discoveryResults suppliers remaining call).map (fun r => r.1))
        ≤ suppliers.length := by
      rw [← hlen]
      exact List.length_filter_le _ _
    by_cases hT : ((discoveryResults suppliers remaining call).map (fun r => r.2.1)).any id = true
    · have hpos := (any_iff_filter_pos _).mp hT
      simp [hT, claimStatusTable, hpos, Nat.pos_iff_ne_zero]
    · have hzero : (((discoveryResults suppliers remaining call).map
          (fun r => r.2.1)).filter id).length = 0 := by
        by_contra hne
        exact hT ((any_iff_filter_pos _).mpr (Nat.pos_of_ne_zero hne))
      have hlen2 : (discoveryResults suppliers remaining call).length = suppliers.length :=
        discoveryResults_length suppliers remaining call
      simp only [hT, Bool.false_eq_true, if_false, claimStatusTable, hzero, Bool.not_true,
        lt_irrefl, if_true, List.length_map]
      split_ifs <;> first
        | rfl
        | (exfalso; omega)

/-- C3: in a run with a positive deadline (every task sees some remaining
time), a task that at its pre-start check has less than the 5-second
safety margin left is skipped immediately: the enrichment service is not
invoked for it, its entity is returned with no contact and marked timed
out, and the run's Stage-C status becomes "partial_timeout" (a value of
the total function, not an exception), so no new enrichment work starts
inside the safety margin of the caller's budget. -/
theorem c3_deadline_skip (suppliers : List Supplier) (remaining : Nat → Option Int)
    (call : Nat → Except String (Option SupplierContact)) (i : Nat) (r : Int)
    (hne : suppliers ≠ []) (hi : i < suppliers.length)
    (hr : remaining i = some r) (hmargin : r < 5) :
    (contactDiscovery suppliers true remaining call).serviceCalled[i]? = some false
    ∧ ((contactDiscovery suppliers true remaining call).suppliers_with_contacts.map
        (fun s => s.contact))[i]? = some none
    ∧ (contactDiscovery suppliers true remaining call).timedOutFlags[i]? = some true
    ∧ (contactDiscovery suppliers true remaining call).firecrawl_status = "partial_timeout" := by
  have hA : (!suppliers.isEmpty && true) = true := by
    simp [List.isEmpty_eq_false.mpr hne]
  have hhit : deadlineHit (remaining i) = true := by
    rw [hr]
    simp [deadlineHit]
    omega
  have hone : ∀ s : Supplier, discover_one s (remaining i) (call i)
      = (⟨s.companyName, s.cageCode, s.partNumber, none⟩, true, false) := by
    intro s
    simp [discover_one, hhit]
  have hsome : suppliers[i]? = some suppliers[i] := List.getElem?_eq_getElem hi
  have hD : (discoveryResults suppliers remaining call)[i]?
      = some (⟨suppliers[i].companyName, suppliers[i].cageCode,
          suppliers[i].partNumber, none⟩, true, false) := by
    simp [discoveryResults_getElem, hsome, hone]
  have hflag : ((discoveryResults suppliers remaining call).map (fun r => r.2.1))[i]?
      = some true := by
    rw [List.getElem?_map, hD]
    rfl
  have hanyT : ((discoveryResults suppliers remaining call).map (fun r => r.2.1)).any id
      = true := by
    rw [List.any_eq_true]
    exact ⟨true, List.getElem?_mem hflag, rfl⟩
  refine ⟨?_, ?_, ?_, ?_⟩
  · simp only [contactDiscovery, hA, if_true]
    rw [List.getElem?_map, hD]
    rfl
  · simp only [contactDiscovery, hA, if_true]
    rw [List.map_map, List.getElem?_map, hD]
    rfl
  · simp only [contactDiscovery, hA, if_true]
    exact hflag
  · simp only [contactDiscovery, hA, if_true, hanyT]

/-- Witness for C3: one supplier with zero seconds remaining at the check
(less than the 5-second margin); the enrichment oracle would even have
returned a high-confidence contact, yet the task is skipped and the run is
marked partial_timeout. -/
theorem c3_deadline_skip_witness :
    (contactDiscovery [⟨"Acme", "123", "p"⟩] true (fun _ => some 0)
        (fun _ => Except.ok (some ⟨"high"⟩))).serviceCalled[0]? = some false
    ∧ ((contactDiscovery [⟨"Acme", "123", "p"⟩] true (fun _ => some 0)
        (fun _ => Except.ok (some ⟨"high"⟩))).suppliers_with_contacts.map
          (fun s => s.contact))[0]? = some none
    ∧ (contactDiscovery [⟨"Acme", "123", "p"⟩] true (fun _ => some 0)
        (fun _ => Except.ok (some ⟨"high"⟩))).timedOutFlags[0]? = some true
    ∧ (contactDiscovery [⟨"Acme", "123", "p"⟩] true (fun _ => some 0)
        (fun _ => Except.ok (some ⟨"high"⟩))).firecrawl_status = "partial_timeout" :=
  c3_deadline_skip [⟨"Acme", "123", "p"⟩] (fun _ => some 0)
    (fun _ => Except.ok (some ⟨"high"⟩)) 0 0 (by decide) (by decide) rfl (by decide)

lemma countP_not_add {α : Type} (p : α → Bool) (l : List α) :
    l.countP p + l.countP (fun a => !p a) = l.length := by
  induction l with
  | nil => simp
  | cons x xs ih =>
    cases h : p x <;> simp [List.countP_cons, h] <;> omega

lemma scrape_batch_trace_fold {α : Type} (runNsn : String → Except String α) :
    ∀ (nsns : List String) (b : BatchProcessingResult α) (tr : List String),
    nsns.foldl (fun acc nsn =>
        let s := scrape_batch_step runNsn acc.1 nsn
        (s.1, acc.2 ++ s.2)) (b, tr)
      = ({ b with
            processed := b.processed + nsns.length
            successful := b.successful + nsns.countP (batch_item_ok runNsn)
            failed := b.failed + nsns.countP (fun n => !batch_item_ok runNsn n)
            results := b.results ++ nsns.map (batch_entry runNsn) },
         tr ++ (nsns.filter validate_nsn).map format_nsn_with_dashes) := by
  intro nsns
  induction nsns with
  | nil => intro b tr; simp
  | cons n rest ih =>
    intro b tr
    rw [List.foldl_cons]
    show List.foldl _
        ((scrape_batch_step runNsn b n).1, tr ++ (scrape_batch_step runNsn b n).2) rest = _
    by_cases hv : validate_nsn n = true
    · cases hrun : runNsn (format_nsn_with_dashes n) with
      | ok r =>
        have hstep : scrape_batch_step runNsn b n
            = ({ b with
                  processed := b.processed + 1
                  successful := b.successful + 1
                  results := b.results
                    ++ [⟨format_nsn_with_dashes n, "success", some r, none⟩] },
               [format_nsn_with_dashes n]) := by
          simp [scrape_batch_step, hv, hrun]
        rw [hstep, ih]
        simp only [List.countP_cons, List.filter_cons, List.map_cons, List.length_cons, hv,
          if_true]
        have hok : batch_item_ok runNsn n = true := by
          simp [batch_item_ok, hv, hrun]
        have hent : batch_entry runNsn n
            = ⟨format_nsn_with_dashes n, "success", some r, none⟩ := by
          simp [batch_entry, hv, hrun]
        simp [hok, hent, List.append_assoc]
        repeat' apply And.intro
        all_goals first
          | rfl
          | omega
      | error e =>
        have hstep : scrape_batch_step runNsn b n
            = ({ b with
                  processed := b.processed + 1
                  failed := b.failed + 1
                  results := b.results
                    ++ [⟨format_nsn_with_dashes n, "error", none, some e⟩] },
               [format_nsn_with_dashes n]) := by
          simp [scrape_batch_step, hv, hrun]
        rw [hstep, ih]
        simp only [List.countP_cons, List.filter_cons, List.map_cons, List.length_cons, hv,
          if_true]
        have hok : batch_item_ok runNsn n = false := by
          simp [batch_item_ok, hrun]
        have hent : batch_entry runNsn n
            = ⟨format_nsn_with_dashes n, "error", none, some e⟩ := by
          simp [batch_entry, hv, hrun]
        simp [hok, hent, List.append_assoc]
        repeat' apply And.intro
        all_goals first
          | rfl
          | omega
    · have hv2 : validate_nsn n = false := by
        cases h : validate_nsn n
        · rfl
        · exact absurd h hv
      have hstep : scrape_batch_step runNsn b n
          = ({ b with
                processed := b.processed + 1
                failed := b.failed + 1
                results := b.results
                  ++ [⟨n, "error", none, some ("Invalid NSN format: " ++ n)⟩] },
             []) := by
        simp [scrape_batch_step, hv2]
      rw [hstep, ih]
      simp only [List.countP_cons, List.filter_cons, List.map_cons, List.length_cons, hv2,
        Bool.false_eq_true, if_false]
      have hok : batch_item_ok runNsn n = false := by
        simp [batch_item_ok, hv2]
      have hent : batch_entry runNsn n
          = ⟨n, "error", none, some ("Invalid NSN format: " ++ n)⟩ := by
        simp [batch_entry, hv2]
      simp [hok, hent, List.append_assoc]
      repeat' apply And.intro
      all_goals first
        | rfl
        | omega

lemma scrape_batch_eq {α : Type} (nsns : List String) (runNsn : String → Except String α) :
    scrape_batch nsns runNsn
      = { totalNsns := nsns.length
          processed := nsns.length
          successful := nsns.countP (batch_item_ok runNsn)
          failed := nsns.countP (fun n => !batch_item_ok runNsn n)
          results := nsns.map (batch_entry runNsn) } := by
  simp [scrape_batch, scrape_batch_trace, scrape_batch_trace_fold]

lemma scrape_batch_invoked {α : Type} (nsns : List String) (runNsn : String → Except String α) :
    (scrape_batch_trace nsns runNsn).2 = (nsns.filter validate_nsn).map format_nsn_with_dashes := by
  simp [scrape_batch_trace, scrape_batch_trace_fold]

/-- C5: the paced-sequential batch never aborts early — for every submitted
list the completed batch has exactly one result entry per item, the
processed counter equals the submitted count and successful + failed sums
to it; an item whose workflow call raises is recorded as that item's
"error" entry (with the error message) at its submission position while
the rest of the list is still processed; and in the concrete 5-item
scenario where only item 3 raises, the result list has length 5 with item
3 "error", the others "success", successful = 4 and failed = 1. -/
theorem c5_batch_continuation :
    (∀ (α : Type) (nsns : List String) (runNsn : String → Except String α),
      (scrape_batch nsns runNsn).results.length = nsns.length
      ∧ (scrape_batch nsns runNsn).processed = nsns.length
      ∧ (scrape_batch nsns runNsn).successful + (scrape_batch nsns runNsn).failed = nsns.length)
    ∧ (∀ (α : Type) (xs ys : List String) (n : String) (runNsn : String → Except String α)
        (e : String), validate_nsn n = true → runNsn (format_nsn_with_dashes n) = Except.error e →
        (scrape_batch (xs ++ n :: ys) runNsn).results[xs.length]?
          = some ⟨format_nsn_with_dashes n, "error", none, some e⟩
        ∧ (scrape_batch (xs ++ n :: ys) runNsn).results.length = xs.length + 1 + ys.length)
    ∧ ((scrape_batch ["0000000000001", "0000000000002", "0000000000003", "0000000000004",
            "0000000000005"]
          (fun s => if s = "0000-00-000-0003" then Except.error "boom" else Except.ok 0)).results.map
            (fun r => r.status)
        = ["success", "success", "error", "success", "success"]
      ∧ (scrape_batch ["0000000000001", "0000000000002", "0000000000003", "0000000000004",
            "0000000000005"]
          (fun s => if s = "0000-00-000-0003" then Except.error "boom" else Except.ok 0)).successful
          = 4
      ∧ (scrape_batch ["0000000000001", "0000000000002", "0000000000003", "0000000000004",
            "0000000000005"]
          (fun s => if s = "0000-00-000-0003" then Except.error "boom" else Except.ok 0)).failed
          = 1
      ∧ (scrape_batch ["0000000000001", "0000000000002", "0000000000003", "0000000000004",
            "0000000000005"]
          (fun s => if s = "0000-00-000-0003" then Except.error "boom" else Except.ok 0)).results.length
          = 5) := by
  refine ⟨?_, ?_, ?_⟩
  · intro α nsns runNsn
    simp [scrape_batch_eq, countP_not_add]
  · intro α xs ys n runNsn e hv hrun
    rw [scrape_batch_eq]
    constructor
    · simp only [List.map_append, List.map_cons]
      rw [List.getElem?_append_right (by simp)]
      simp [batch_entry, hv, hrun]
    · simp
      omega
  · refine ⟨by decide, by decide, by decide, by decide⟩

/-- Witness for C5 at a concrete input: a single valid NSN whose workflow
call raises "boom" yields a one-entry batch with that error recorded. -/
theorem c5_batch_continuation_witness :
    (scrape_batch ["0000000000001"]
        (fun _ => (Except.error "boom" : Except String Nat))).results[(0 : Nat)]?
      = some ⟨"0000-00-000-0001", "error", none, some "boom"⟩
    ∧ (scrape_batch ["0000000000001"]
        (fun _ => (Except.error "boom" : Except String Nat))).results.length = 0 + 1 + 0 :=
  c5_batch_continuation.2.1 Nat [] [] "0000000000001"
    (fun _ => Except.error "boom") "boom" (by decide) rfl

/-- C8 counterexample: in the bounded-concurrent strategy
(src/api.py 725-768) the invalid item "abc" is not validated before the
cost is paid — the concurrency slot is acquired and the per-item workflow
(`scrape_nsn`) is invoked for it all the same. -/
theorem c8_counterexample :
    validate_nsn "abc" = false
    ∧ (limited_scrape "abc" (fun _ => (Except.ok 0 : Except String Nat))).slotAcquired = true
    ∧ (limited_scrape "abc" (fun _ => (Except.ok 0 : Except String Nat))).workflowInvoked
        = true := by
  decide

/-- C8 (amended): only the paced-sequential strategy pre-validates.  In
`scrape_batch` the workflow is invoked exactly for the valid items (the
invocation log is the valid items, formatted, in order), and an invalid
item is recorded as an immediate error entry with no invocation at all;
the bounded-concurrent endpoint performs no per-item validation — every
item, valid or not, consumes a concurrency slot and invokes the per-item
workflow. -/
theorem c8_prevalidation :
    (∀ (α : Type) (nsns : List String) (runNsn : String → Except String α),
      (scrape_batch_trace nsns runNsn).2 = (nsns.filter validate_nsn).map format_nsn_with_dashes)
    ∧ (∀ (α : Type) (n : String) (runNsn : String → Except String α),
        validate_nsn n = false →
        batch_entry runNsn n = ⟨n, "error", none, some ("Invalid NSN format: " ++ n)⟩
        ∧ (scrape_batch [n] runNsn).results
            = [⟨n, "error", none, some ("Invalid NSN format: " ++ n)⟩]
        ∧ (scrape_batch_trace [n] runNsn).2 = [])
    ∧ (∀ (α : Type) (n : String) (runNsn : String → Except String α),
        (limited_scrape n runNsn).slotAcquired = true
        ∧ (limited_scrape n runNsn).workflowInvoked = true) := by
  refine ⟨?_, ?_, ?_⟩
  · intro α nsns runNsn
    exact scrape_batch_invoked nsns runNsn
  · intro α n runNsn hv
    refine ⟨?_, ?_, ?_⟩
    · simp [batch_entry, hv]
    · rw [scrape_batch_eq]
      simp [batch_entry, hv]
    · rw [scrape_batch_invoked]
      simp [hv]
  · intro α n runNsn
    exact ⟨rfl, rfl⟩

/-- Witness for C8 at the invalid item "abc": the paced-sequential strategy
records the immediate error entry and its invocation log is empty. -/
theorem c8_prevalidation_witness :
    batch_entry (fun _ => (Except.ok 0 : Except String Nat)) "abc"
        = ⟨"abc", "error", none, some ("Invalid NSN format: " ++ "abc")⟩
    ∧ (scrape_batch ["abc"] (fun _ => (Except.ok 0 : Except String Nat))).results
        = [⟨"abc", "error", none, some ("Invalid NSN format: " ++ "abc")⟩]
    ∧ (scrape_batch_trace ["abc"] (fun _ => (Except.ok 0 : Except String Nat))).2 = [] :=
  c8_prevalidation.2.1 Nat "abc" (fun _ => Except.ok 0) (by decide)

lemma discover_one_error_contact (s : Supplier) (rem : Option Int) (e : String) :
    (discover_one s rem (Except.error e)).1.contact = none := by
  cases h : deadlineHit rem <;> simp [discover_one, h]

lemma contactDiscovery_error_contact_none (suppliers : List Supplier) (configured : Bool)
    (remaining : Nat → Option Int) (call : Nat → Except String (Option SupplierContact))
    (i : Nat) (e : String) (s : SupplierWithContact)
    (hc : call i = Except.error e)
    (hs : (contactDiscovery suppliers configured remaining call).suppliers_with_contacts[i]?
        = some s) : s.contact = none := by
  by_cases hA : (!suppliers.isEmpty && configured) = true
  · simp only [contactDiscovery, hA, if_true] at hs
    rw [List.getElem?_map, discoveryResults_getElem] at hs
    cases hsup : suppliers[i]? with
    | none => rw [hsup] at hs; simp at hs
    | some x =>
      rw [hsup] at hs
      simp at hs
      rw [← hs]
      rw [hc]
      exact discover_one_error_contact x (remaining i) e
  · have hA2 : (!suppliers.isEmpty && configured) = false := by
      cases h : (!suppliers.isEmpty && configured)
      · rfl
      · exact absurd h hA
    simp only [contactDiscovery, hA2, Bool.false_eq_true, if_false] at hs
    rw [List.getElem?_map] at hs
    cases hsup : suppliers[i]? with
    | none => rw [hsup] at hs; simp at hs
    | some x =>
      rw [hsup] at hs
      simp at hs
      rw [← hs]

/-- C6: on every input where the two source fetches hand back their
structured outcomes, `scrape_nsn` returns an EnhancedRFQResult (it is a
total function of those outcomes): each source's fetch failure is recorded
in its per-source workflow status ("error" exactly when success is false),
and an enrichment call that raises is captured — the corresponding
supplier is returned with an absent contact — rather than propagating. -/
theorem c6_structured_result (nsn : String) (dibbs_result : ScrapeResult)
    (wbparts_result : WBPartsScrapeResult) (max_suppliers : Nat) (configured : Bool)
    (remaining : Nat → Option Int) (call : Nat → Except String (Option SupplierContact)) :
    (scrape_nsn nsn dibbs_result wbparts_result max_suppliers configured
        remaining call).workflow.dibbsStatus
      = (if dibbs_result.success then "success" else "error")
    ∧ (scrape_nsn nsn dibbs_result wbparts_result max_suppliers configured
        remaining call).workflow.wbpartsStatus
      = (if wbparts_result.success then "success" else "error")
    ∧ (∀ (i : Nat) (e : String) (s : SupplierWithContact),
        call i = Except.error e →
        (scrape_nsn nsn dibbs_result wbparts_result max_suppliers configured
            remaining call).suppliers[i]? = some s →
        s.contact = none) := by
  refine ⟨by simp [scrape_nsn], by simp [scrape_nsn], ?_⟩
  intro i e s hc hs
  exact contactDiscovery_error_contact_none _ configured remaining call i e s hc
    (by simpa [scrape_nsn] using hs)

/-- Witness for C6 at concrete inputs: DIBBS succeeded with one approved
source, WBParts failed, and the single enrichment call raised "boom"; the
statuses are recorded and the supplier comes back with no contact. -/
theorem c6_structured_result_witness :
    (scrape_nsn "4520012619675"
        ⟨true, some ⟨"4520-01-261-9675", "VALVE", [⟨"Acme", "123", "p"⟩], true⟩, none⟩
        ⟨false, none, some "HTTP 404"⟩ 0 true (fun _ => none)
        (fun _ => Except.error "boom")).workflow.dibbsStatus = "success"
    ∧ (scrape_nsn "4520012619675"
        ⟨true, some ⟨"4520-01-261-9675", "VALVE", [⟨"Acme", "123", "p"⟩], true⟩, none⟩
        ⟨false, none, some "HTTP 404"⟩ 0 true (fun _ => none)
        (fun _ => Except.error "boom")).workflow.wbpartsStatus = "error"
    ∧ (⟨"Acme", "123", "p", none⟩ : SupplierWithContact).contact = none :=
  ⟨(c6_structured_result "4520012619675"
      ⟨true, some ⟨"4520-01-261-9675", "VALVE", [⟨"Acme", "123", "p"⟩], true⟩, none⟩
      ⟨false, none, some "HTTP 404"⟩ 0 true (fun _ => none)
      (fun _ => Except.error "boom")).1,
   (c6_structured_result "4520012619675"
      ⟨true, some ⟨"4520-01-261-9675", "VALVE", [⟨"Acme", "123", "p"⟩], true⟩, none⟩
      ⟨false, none, some "HTTP 404"⟩ 0 true (fun _ => none)
      (fun _ => Except.error "boom")).2.1,
   (c6_structured_result "4520012619675"
      ⟨true, some ⟨"4520-01-261-9675", "VALVE", [⟨"Acme", "123", "p"⟩], true⟩, none⟩
      ⟨false, none, some "HTTP 404"⟩ 0 true (fun _ => none)
      (fun _ => Except.error "boom")).2.2 0 "boom" ⟨"Acme", "123", "p", none⟩ rfl (by decide)⟩

lemma semTrace_heldAlong_le (maxPages : Nat) :
    ∀ (tr : List PoolEvent) (avail held : Nat), SemTrace avail held tr →
      avail + held = maxPages → ∀ h ∈ heldAlong avail held tr, h ≤ maxPages := by
  intro tr
  induction tr with
  | nil =>
    intro avail held _ hsum h hmem
    simp [heldAlong] at hmem
    omega
  | cons ev rest ih =>
    intro avail held htr hsum h hmem
    cases htr with
    | acq _ _ _ hpos htl =>
      simp only [heldAlong, List.mem_cons] at hmem
      rcases hmem with rfl | hmem
      · omega
      · exact ih _ _ htl (by omega) h hmem
    | opn _ _ _ htl =>
      simp only [heldAlong, List.mem_cons] at hmem
      rcases hmem with rfl | hmem
      · omega
      · exact ih _ _ htl hsum h hmem
    | cls _ _ _ htl =>
      simp only [heldAlong, List.mem_cons] at hmem
      rcases hmem with rfl | hmem
      · omega
      · exact ih _ _ htl hsum h hmem
    | rel _ _ _ hpos htl =>
      simp only [heldAlong, List.mem_cons] at hmem
      rcases hmem with rfl | hmem
      · omega
      · exact ih _ _ htl (by omega) h hmem

/-- C2: on any legal interleaving of pool events — legal meaning every
`.acquire` goes through the semaphore, possible only while a slot is free,
with `maxPages` total slots — the number of held slots (and hence of live
contexts, each opened only under a held slot) never exceeds `maxPages` at
any point of the trace; and every `get_context` usage block emits a
balanced event sequence: either no events at all (timeout: nothing
acquired), or acquire directly followed by release (context creation
failed), or acquire, context open, context close, release — for BOTH body
outcomes, normal and raising/cancelled, so each acquired slot is released
and each opened context closed on every exit path. -/
theorem c2_pool_bound :
    (∀ (maxPages avail held : Nat) (tr : List PoolEvent), SemTrace avail held tr →
      avail + held = maxPages →
      (heldAlong avail held tr).all (fun x => x ≤ maxPages) = true)
    ∧ (∀ (slotGranted ctxCreated : Bool) (body : Except String Unit),
        get_context_events slotGranted ctxCreated body = []
        ∨ get_context_events slotGranted ctxCreated body
            = [PoolEvent.acquire, PoolEvent.release]
        ∨ get_context_events slotGranted ctxCreated body
            = [PoolEvent.acquire, PoolEvent.ctxOpen, PoolEvent.ctxClose, PoolEvent.release]) := by
  constructor
  · intro maxPages avail held tr htr hsum
    rw [List.all_eq_true]
    intro x hx
    simpa using semTrace_heldAlong_le maxPages tr avail held htr hsum x hx
  · intro g c body
    cases g <;> cases c <;> cases body <;> simp [get_context_events]

/-- Witness for C2: the concrete legal trace acquire-acquire-release on a
2-slot pool keeps the held count at [0, 1, 2, 1] — within the cap 2. -/
theorem c2_pool_bound_witness :
    (heldAlong 2 0 [PoolEvent.acquire, PoolEvent.acquire, PoolEvent.release]).all
      (fun x => x ≤ 2) = true :=
  c2_pool_bound.1 2 2 0 [PoolEvent.acquire, PoolEvent.acquire, PoolEvent.release]
    (SemTrace.acq 2 0 _ (by decide)
      (SemTrace.acq 1 1 _ (by decide)
        (SemTrace.rel 0 2 _ (by decide) (SemTrace.nil 1 1)))) rfl

/-- C7: on a started pool, a lease request with timeout T either gets a
slot within T (`slotGranted`, then no error is raised and the slot is
held) or the wait ends in the timeout — and exactly then the pool-busy
error is raised, carrying the timeout, the max-concurrency limit
(MAX_BROWSER_PAGES) and the waiting count; the function is total, so the
call never hangs past the modelled wait. -/
theorem c7_pool_timeout (st : PoolState) (timeout : Nat) (slotGranted : Bool)
    (hstart : st.started = true) :
    ((get_context_acquire st timeout slotGranted).2
        = some (PoolError.poolBusy timeout st.maxPages st.waiting) ↔ slotGranted = false)
    ∧ (slotGranted = true →
        (get_context_acquire st timeout slotGranted).2 = none
        ∧ (get_context_acquire st timeout slotGranted).1.semAvail = st.semAvail - 1) := by
  cases slotGranted <;> simp [get_context_acquire, hstart]

/-- Witness for C7: a started 4-slot pool with 2 waiters; the timed-out
request raises the pool-busy error with those numbers, the granted request
raises nothing. -/
theorem c7_pool_timeout_witness :
    ((get_context_acquire ⟨true, 4, 0, 2⟩ 300 false).2
        = some (PoolError.poolBusy 300 4 2) ↔ false = false)
    ∧ (false = true →
        (get_context_acquire ⟨true, 4, 0, 2⟩ 300 false).2 = none
        ∧ (get_context_acquire ⟨true, 4, 0, 2⟩ 300 false).1.semAvail = 0 - 1) :=
  c7_pool_timeout ⟨true, 4, 0, 2⟩ 300 false rfl

end RFQ
